import Mathlib

/-!
Shallow embedding of the TinyProbe firmware main loop
(src/software/TinyProbe.ino, canonical interrupt-enabled variant:
OSC_DUR = 50, oscillation forcibly clears the floating flag).

The loop body is modelled as a pure function of the per-cycle inputs
(ADC readings, the digital pin samples taken during the floating check,
and whether a pin-change edge fired during the 1 ms arm window) and the
cross-cycle state (the decaying oscillation counter, the previous
cycle's classification, and the PORTB output register).
-/

-- Logic-level thresholds and the oscillation decay duration (lines 55-59).
def TTL_LOW : Nat := 164
def TTL_HIGH : Nat := 409
def CMOS_LOW : Nat := 307
def CMOS_HIGH : Nat := 716
def OSC_DUR : Nat := 50

/-- Per-cycle inputs provided by the environment: the ADC reading of the
TTL/CMOS select switch, whether a pin-change edge occurred on the probe
line during the 1 ms arm window, the PINB byte sampled while the line is
pulled up, the PINB byte sampled while the line is pulled down, and the
ADC reading of the probe line. -/
structure CycleInput where
  valSwitch : Nat
  edge : Bool
  pinbUp : Nat
  pinbDown : Nat
  valProbe : Nat
deriving DecidableEq, Repr

/-- Cross-cycle state: the decaying oscillation counter (global
`volatile uint8_t isOscillating`, zero-initialised), the previous
cycle's classification snapshot (`lastHigh`, `lastLow`, uninitialised
locals, stored as the uint8 values 0/1 once written), and the PORTB
output register. -/
structure LoopState where
  isOscillating : Nat
  lastHigh : Nat
  lastLow : Nat
  portb : Nat
deriving DecidableEq, Repr

/-- Threshold selection (lines 84-93): TTL by default, CMOS when the
switch reading is below 768. Returns (valLow, valHigh). -/
def selectThresholds (valSwitch : Nat) : Nat × Nat :=
  if valSwitch < 768 then (CMOS_LOW, CMOS_HIGH) else (TTL_LOW, TTL_HIGH)

/-- The threshold pair used by a cycle, a function of the switch reading only. -/
def thresholds (inp : CycleInput) : Nat × Nat :=
  selectThresholds inp.valSwitch

/-- `isHigh = (valProbe > valHigh)` (line 118). -/
def isHighOf (inp : CycleInput) : Bool :=
  decide (inp.valProbe > (thresholds inp).2)

/-- `isLow = (valProbe < valLow)` (line 119). -/
def isLowOf (inp : CycleInput) : Bool :=
  decide (inp.valProbe < (thresholds inp).1)

/-- The floating check (lines 105-109): record PINB while pulled up,
AND with the bitwise complement of PINB while pulled down, mask to the
probe bit PB3 (0b00001000). Register reads are 8-bit. -/
def floatingCheck (pinbUp pinbDown : Nat) : Nat :=
  ((pinbUp % 256) &&& (255 ^^^ (pinbDown % 256))) &&& 0b00001000

def isFloatingOf (inp : CycleInput) : Nat :=
  floatingCheck inp.pinbUp inp.pinbDown

/-- Counter after the transient (pin-change) detector: the ISR (lines
142-144) assigns OSC_DUR on any edge during the arm window. -/
def oscAfterArm (s : LoopState) (e : Bool) : Nat :=
  if e then OSC_DUR else s.isOscillating

/-- The slow-oscillation guard (line 122):
`!isFloating && ((isHigh && lastLow) || (isLow && lastHigh))` with C
truthiness (nonzero) on the uint8 variables. -/
def slowTrigger (s : LoopState) (inp : CycleInput) : Bool :=
  (isFloatingOf inp == 0) &&
    ((isHighOf inp && (s.lastLow != 0)) || (isLowOf inp && (s.lastHigh != 0)))

/-- Counter after the slow-oscillation check (line 122). -/
def oscAfterSlow (s : LoopState) (inp : CycleInput) : Nat :=
  if slowTrigger s inp then OSC_DUR else oscAfterArm s inp.edge

/-- Floating flag after the override (line 124):
`if (isOscillating) isFloating = 0`. -/
def floatFinal (s : LoopState) (inp : CycleInput) : Nat :=
  if oscAfterSlow s inp ≠ 0 then 0 else isFloatingOf inp

/-- PORTB manipulation of the pull pin PB4 earlier in the cycle:
`PORTB |= 0b00010000` (line 97) then `PORTB &= 0b11101111` (line 106). -/
def portbAfterPull (portb : Nat) : Nat :=
  (portb ||| 0b00010000) &&& 0b11101111

/-- The HIGH/LOW LED bits (lines 127, 130, 131): switch all LEDs off
(`PORTB &= 0b11111000`), set `0b010` if low, set `0b101` if high. -/
def levelBits (portb : Nat) (isLow isHigh : Bool) : Nat :=
  let p := portb &&& 0b11111000
  let p1 := if isLow then p ||| 0b00000010 else p
  if isHigh then p1 ||| 0b00000101 else p1

/-- The output encoder (lines 127-136): floating shows only the FL
pattern `0b100`; otherwise the level bits are set, and if the
oscillation counter is nonzero the OS pattern is layered by clearing
bit 2 and setting bit 0, and the counter is decremented. Returns the
new PORTB and the new counter. -/
def encode (isFloating : Nat) (isLow isHigh : Bool) (osc portb : Nat) : Nat × Nat :=
  if isFloating ≠ 0 then ((portb &&& 0b11111000) ||| 0b00000100, osc)
  else
    let p := levelBits portb isLow isHigh
    if osc ≠ 0 then ((p &&& 0b11111011) ||| 0b00000001, osc - 1)
    else (p, osc)

/-- One iteration of the main loop (lines 82-138). -/
def cycle (s : LoopState) (inp : CycleInput) : LoopState :=
  let osc := oscAfterSlow s inp
  let fl := floatFinal s inp
  let r := encode fl (isLowOf inp) (isHighOf inp) osc (portbAfterPull s.portb)
  { isOscillating := r.2
    lastHigh := if isHighOf inp then 1 else 0
    lastLow := if isLowOf inp then 1 else 0
    portb := r.1 }

/-- State at entry to the first iteration: `isOscillating` is a
zero-initialised global, PORTB was set to 0 in setup (line 76), and
`lastHigh`/`lastLow` are uninitialised locals with arbitrary values. -/
def initState (lastHigh0 lastLow0 : Nat) : LoopState :=
  { isOscillating := 0, lastHigh := lastHigh0, lastLow := lastLow0, portb := 0 }

/-- Repeated iterations of the loop over a list of per-cycle inputs. -/
def runCycles (s : LoopState) : List CycleInput → LoopState
  | [] => s
  | inp :: rest => runCycles (cycle s inp) rest

/-!
The four charlieplexed indicator LEDs. PB0, PB1, PB2 are always
outputs (DDRB = 0b00000111); an LED between anode pin a and cathode
pin c lights exactly when bit a of PORTB is 1 and bit c is 0. The
anode/cathode assignment below is the unique one consistent with the
source's labelled patterns (FL = 0b100, LO = 0b010, HI = 0b101, and OS
layered by clearing bit 2 and setting bit 0): HI is PB0 to PB1, LO is
PB1 to PB2, OS is PB0 to PB2, FL is PB2 to PB0.
-/

def ledHI (p : Nat) : Bool := p.testBit 0 && !(p.testBit 1)
def ledLO (p : Nat) : Bool := p.testBit 1 && !(p.testBit 2)
def ledOS (p : Nat) : Bool := p.testBit 0 && !(p.testBit 2)
def ledFL (p : Nat) : Bool := p.testBit 2 && !(p.testBit 0)

/-- The pull-resource registers touched by the floating check. -/
structure PullRegs where
  portb : Nat
  ddrb : Nat
deriving DecidableEq, Repr

/-- One full run of the floating check as a state transformer on the
pull-resource registers, including the re-bias that precedes it in the
loop (lines 96-97: DDRB |= 16, PORTB |= 16) and the release at the end
(line 110: DDRB &= 0b11101111). Returns the flag and the new registers. -/
def floatCheckStep (r : PullRegs) (pinbUp pinbDown : Nat) : Nat × PullRegs :=
  let portb1 := r.portb ||| 0b00010000
  let ddrb1 := r.ddrb ||| 0b00010000
  let fl0 := pinbUp % 256
  let portb2 := portb1 &&& 0b11101111
  let fl1 := fl0 &&& (255 ^^^ (pinbDown % 256))
  let fl2 := fl1 &&& 0b00001000
  let ddrb2 := ddrb1 &&& 0b11101111
  (fl2, { portb := portb2, ddrb := ddrb2 })

/-- An input that cannot re-trigger the oscillation counter: no edge in
the arm window, and a mid-band probe reading (neither high nor low), so
the slow-oscillation guard is false whatever the prior classification. -/
def NoTrigger (inp : CycleInput) : Prop :=
  inp.edge = false ∧ isHighOf inp = false ∧ isLowOf inp = false

instance (inp : CycleInput) : Decidable (NoTrigger inp) := by
  unfold NoTrigger; infer_instance

-- Sanity checks on concrete cycles (spec section 8 scenarios).
example : isHighOf ⟨900, false, 0, 0, 500⟩ = true := by decide
example : isLowOf ⟨900, false, 0, 0, 500⟩ = false := by decide
example : (cycle (initState 0 0) ⟨900, false, 0, 0, 500⟩).portb = 0b101 := by decide
example : (cycle (initState 0 0) ⟨300, false, 0, 0, 500⟩).portb = 0 := by decide
example : (cycle (initState 0 0) ⟨900, false, 8, 0, 500⟩).portb = 0b100 := by decide
example : (cycle (initState 0 1) ⟨900, false, 0, 0, 500⟩).portb = 0b001 := by decide
example : (cycle (initState 0 1) ⟨900, false, 0, 0, 500⟩).isOscillating = 49 := by decide

/-!
Helper lemmas about the bits of the encoded PORTB values.
-/

lemma flPat_testBit0 (x : Nat) : ((x &&& 248) ||| 4).testBit 0 = false := by
  simp [Nat.testBit_lor, Nat.testBit_land,
    (by decide : Nat.testBit 248 0 = false), (by decide : Nat.testBit 4 0 = false)]

lemma flPat_testBit1 (x : Nat) : ((x &&& 248) ||| 4).testBit 1 = false := by
  simp [Nat.testBit_lor, Nat.testBit_land,
    (by decide : Nat.testBit 248 1 = false), (by decide : Nat.testBit 4 1 = false)]

lemma flPat_testBit2 (x : Nat) : ((x &&& 248) ||| 4).testBit 2 = true := by
  simp [Nat.testBit_lor, (by decide : Nat.testBit 4 2 = true)]

lemma osLayer_testBit0 (y : Nat) : ((y &&& 251) ||| 1).testBit 0 = true := by
  simp [Nat.testBit_lor, (by decide : Nat.testBit 1 0 = true)]

lemma osLayer_testBit1 (y : Nat) : ((y &&& 251) ||| 1).testBit 1 = y.testBit 1 := by
  simp [Nat.testBit_lor, Nat.testBit_land,
    (by decide : Nat.testBit 251 1 = true), (by decide : Nat.testBit 1 1 = false)]

lemma osLayer_testBit2 (y : Nat) : ((y &&& 251) ||| 1).testBit 2 = false := by
  simp [Nat.testBit_lor, Nat.testBit_land,
    (by decide : Nat.testBit 251 2 = false), (by decide : Nat.testBit 1 2 = false)]

lemma levelBits_testBit0 (x : Nat) (lo hi : Bool) :
    (levelBits x lo hi).testBit 0 = hi := by
  unfold levelBits
  cases lo <;> cases hi <;>
    simp [Nat.testBit_lor, Nat.testBit_land,
      (by decide : Nat.testBit 248 0 = false), (by decide : Nat.testBit 2 0 = false),
      (by decide : Nat.testBit 5 0 = true)]

lemma levelBits_testBit1 (x : Nat) (lo hi : Bool) :
    (levelBits x lo hi).testBit 1 = lo := by
  unfold levelBits
  cases lo <;> cases hi <;>
    simp [Nat.testBit_lor, Nat.testBit_land,
      (by decide : Nat.testBit 248 1 = false), (by decide : Nat.testBit 2 1 = true),
      (by decide : Nat.testBit 5 1 = false)]

lemma levelBits_testBit2 (x : Nat) (lo hi : Bool) :
    (levelBits x lo hi).testBit 2 = hi := by
  unfold levelBits
  cases lo <;> cases hi <;>
    simp [Nat.testBit_lor, Nat.testBit_land,
      (by decide : Nat.testBit 248 2 = false), (by decide : Nat.testBit 2 2 = false),
      (by decide : Nat.testBit 5 2 = true)]

/-- Characterisation of one cycle's resulting counter and PORTB. -/
lemma cycle_portb_osc (s : LoopState) (inp : CycleInput) :
    (cycle s inp).isOscillating =
      (if floatFinal s inp ≠ 0 then oscAfterSlow s inp
       else if oscAfterSlow s inp ≠ 0 then oscAfterSlow s inp - 1
       else oscAfterSlow s inp) ∧
    (cycle s inp).portb =
      (if floatFinal s inp ≠ 0 then (portbAfterPull s.portb &&& 248) ||| 4
       else if oscAfterSlow s inp ≠ 0 then
         (levelBits (portbAfterPull s.portb) (isLowOf inp) (isHighOf inp) &&& 251) ||| 1
       else levelBits (portbAfterPull s.portb) (isLowOf inp) (isHighOf inp)) := by
  unfold cycle encode
  by_cases h1 : floatFinal s inp ≠ 0 <;> by_cases h2 : oscAfterSlow s inp ≠ 0 <;>
    simp [h1, h2]

/-- An edge during the arm window forces the counter to OSC_DUR at the
slow-oscillation check, whatever the slow check decides. -/
lemma oscAfterSlow_edge (s : LoopState) (inp : CycleInput) (he : inp.edge = true) :
    oscAfterSlow s inp = OSC_DUR := by
  unfold oscAfterSlow oscAfterArm
  rw [he]
  split <;> simp

lemma high_not_low (inp : CycleInput) (h : isHighOf inp = true) : isLowOf inp = false := by
  unfold isHighOf isLowOf thresholds selectThresholds at *
  by_cases hs : inp.valSwitch < 768 <;>
    simp [hs, TTL_LOW, TTL_HIGH, CMOS_LOW, CMOS_HIGH] at * <;> omega

lemma noTrigger_slowTrigger (s : LoopState) (inp : CycleInput) (h : NoTrigger inp) :
    slowTrigger s inp = false := by
  unfold slowTrigger
  rw [h.2.1, h.2.2]
  simp

/-- Effect of one cycle whose input cannot re-trigger the counter. -/
lemma noTrigger_cycle (s : LoopState) (inp : CycleInput) (h : NoTrigger inp) :
    (cycle s inp).isOscillating = s.isOscillating - 1 ∧
    ledOS (cycle s inp).portb = decide (s.isOscillating ≠ 0) := by
  have hslow : oscAfterSlow s inp = s.isOscillating := by
    unfold oscAfterSlow oscAfterArm
    rw [noTrigger_slowTrigger s inp h, h.1]
    simp
  have hc := cycle_portb_osc s inp
  by_cases hz : s.isOscillating = 0
  · have hff : floatFinal s inp = isFloatingOf inp := by
      unfold floatFinal
      simp [hslow, hz]
    rw [decide_eq_false (not_not_intro hz)]
    by_cases hf : isFloatingOf inp = 0
    · have hp : (cycle s inp).portb
          = levelBits (portbAfterPull s.portb) (isLowOf inp) (isHighOf inp) := by
        rw [hc.2]
        simp [hff, hf, hslow, hz]
      constructor
      · rw [hc.1]
        simp [hff, hf, hslow, hz]
      · rw [hp]
        unfold ledOS
        rw [h.2.1, h.2.2, levelBits_testBit0]
        simp
    · have hp : (cycle s inp).portb = (portbAfterPull s.portb &&& 248) ||| 4 := by
        rw [hc.2]
        simp [hff, hf, hslow, hz]
      constructor
      · rw [hc.1]
        simp [hff, hf, hslow, hz]
      · rw [hp]
        unfold ledOS
        rw [flPat_testBit0]
        simp
  · have hff : floatFinal s inp = 0 := by
      unfold floatFinal
      simp [hslow, hz]
    rw [decide_eq_true hz]
    have hp : (cycle s inp).portb
        = (levelBits (portbAfterPull s.portb) (isLowOf inp) (isHighOf inp) &&& 251) ||| 1 := by
      rw [hc.2]
      simp [hff, hslow, hz]
    constructor
    · rw [hc.1]
      simp [hff, hslow, hz]
    · rw [hp]
      unfold ledOS
      rw [osLayer_testBit0, osLayer_testBit2]
      simp

/-- The counter decreases by the number of no-trigger cycles run. -/
lemma noTrigger_run (l : List CycleInput) (hl : ∀ i ∈ l, NoTrigger i) (s : LoopState) :
    (runCycles s l).isOscillating = s.isOscillating - l.length := by
  induction l generalizing s with
  | nil => simp [runCycles]
  | cons a t ih =>
    have ha : NoTrigger a := hl a (by simp)
    have ht : ∀ i ∈ t, NoTrigger i := fun i hi => hl i (by simp [hi])
    unfold runCycles
    rw [ih ht (cycle s a), (noTrigger_cycle s a ha).1]
    simp
    omega

/-- The cycle keeps the counter within the range of OSC_DUR. -/
lemma cycle_osc_le (s : LoopState) (inp : CycleInput) (h : s.isOscillating ≤ OSC_DUR) :
    (cycle s inp).isOscillating ≤ OSC_DUR := by
  have hslow : oscAfterSlow s inp ≤ OSC_DUR := by
    unfold oscAfterSlow oscAfterArm
    split
    · exact Nat.le_refl _
    · split
      · exact Nat.le_refl _
      · exact h
  rw [(cycle_portb_osc s inp).1]
  split
  · exact hslow
  · split <;> omega

/-!
Claim theorems.
-/

/-- Claim C1: in every cycle whose floating flag is true at
output-encoding time, the cycle's final PORTB carries the FLOATING
pattern alone: the FL LED is asserted and the HIGH, LOW and OSCILLATING
LEDs are all off, regardless of the computed isHigh, isLow and
oscillation counter values. -/
theorem floating_suppresses_level_and_osc (s : LoopState) (inp : CycleInput)
    (h : floatFinal s inp ≠ 0) :
    (cycle s inp).portb.testBit 2 = true ∧
    (cycle s inp).portb.testBit 0 = false ∧
    (cycle s inp).portb.testBit 1 = false ∧
    ledFL (cycle s inp).portb = true ∧
    ledHI (cycle s inp).portb = false ∧
    ledLO (cycle s inp).portb = false ∧
    ledOS (cycle s inp).portb = false := by
  have hp : (cycle s inp).portb = (portbAfterPull s.portb &&& 248) ||| 4 := by
    rw [(cycle_portb_osc s inp).2]
    simp [h]
  rw [hp]
  unfold ledFL ledHI ledLO ledOS
  rw [flPat_testBit0, flPat_testBit1, flPat_testBit2]
  simp

theorem floating_suppresses_level_and_osc_witness :
    floatFinal (initState 0 0) ⟨900, false, 8, 0, 500⟩ ≠ 0 ∧
    ledFL (cycle (initState 0 0) ⟨900, false, 8, 0, 500⟩).portb = true :=
  ⟨by decide,
   (floating_suppresses_level_and_osc (initState 0 0) ⟨900, false, 8, 0, 500⟩
     (by decide)).2.2.2.1⟩

/-- Claim C2: for every probe reading and selected profile, the
classifier computes isHigh iff the reading exceeds the high threshold
and isLow iff it is below the low threshold; the two are never
simultaneously true, because the low threshold is below the high
threshold in both the TTL and the CMOS profile. -/
theorem classifier_spec (inp : CycleInput) :
    (isHighOf inp = true ↔ inp.valProbe > (thresholds inp).2) ∧
    (isLowOf inp = true ↔ inp.valProbe < (thresholds inp).1) ∧
    ¬(isHighOf inp = true ∧ isLowOf inp = true) ∧
    (thresholds inp).1 < (thresholds inp).2 := by
  unfold isHighOf isLowOf thresholds selectThresholds
  by_cases h : inp.valSwitch < 768 <;>
    simp [h, TTL_LOW, TTL_HIGH, CMOS_LOW, CMOS_HIGH] <;> omega

/-- Claim C3: the CMOS profile (low 307, high 716) is chosen iff the
calibration reading is below the midpoint 768, and the TTL profile
(low 164, high 409) iff it is at or above; the selection is a pure
function of that single reading. -/
theorem threshold_selector_spec :
    (∀ v, (selectThresholds v = (CMOS_LOW, CMOS_HIGH) ↔ v < 768) ∧
      (selectThresholds v = (TTL_LOW, TTL_HIGH) ↔ 768 ≤ v)) ∧
    (∀ inp inp2 : CycleInput, inp.valSwitch = inp2.valSwitch →
      thresholds inp = thresholds inp2) := by
  constructor
  · intro v
    by_cases h : v < 768 <;>
      simp [selectThresholds, h, TTL_LOW, TTL_HIGH, CMOS_LOW, CMOS_HIGH,
        Prod.ext_iff] <;> omega
  · intro inp inp2 h
    unfold thresholds
    rw [h]

theorem threshold_selector_spec_witness :
    selectThresholds 300 = (CMOS_LOW, CMOS_HIGH) ∧
    thresholds ⟨300, false, 0, 0, 0⟩ = thresholds ⟨300, true, 8, 8, 1000⟩ :=
  ⟨(threshold_selector_spec.1 300).1.mpr (by decide),
   threshold_selector_spec.2 ⟨300, false, 0, 0, 0⟩ ⟨300, true, 8, 8, 1000⟩ rfl⟩

/-- Claim C4: whenever the oscillation counter is nonzero after the
slow-oscillation check, the floating flag is cleared before output
encoding, and that cycle does not light the FLOATING LED. -/
theorem nonzero_osc_clears_floating (s : LoopState) (inp : CycleInput)
    (h : oscAfterSlow s inp ≠ 0) :
    floatFinal s inp = 0 ∧ ledFL (cycle s inp).portb = false := by
  have hfl : floatFinal s inp = 0 := by
    unfold floatFinal
    simp [h]
  refine ⟨hfl, ?_⟩
  have hp : (cycle s inp).portb
      = (levelBits (portbAfterPull s.portb) (isLowOf inp) (isHighOf inp) &&& 251) ||| 1 := by
    rw [(cycle_portb_osc s inp).2]
    simp [hfl, h]
  rw [hp]
  unfold ledFL
  rw [osLayer_testBit0, osLayer_testBit2]
  simp

theorem nonzero_osc_clears_floating_witness :
    oscAfterSlow ⟨5, 0, 0, 0⟩ ⟨900, false, 8, 0, 300⟩ ≠ 0 ∧
    floatFinal ⟨5, 0, 0, 0⟩ ⟨900, false, 8, 0, 300⟩ = 0 ∧
    ledFL (cycle ⟨5, 0, 0, 0⟩ ⟨900, false, 8, 0, 300⟩).portb = false :=
  ⟨by decide,
   (nonzero_osc_clears_floating ⟨5, 0, 0, 0⟩ ⟨900, false, 8, 0, 300⟩ (by decide)).1,
   (nonzero_osc_clears_floating ⟨5, 0, 0, 0⟩ ⟨900, false, 8, 0, 300⟩ (by decide)).2⟩

/-- Claim C5, counterexample: in a cycle whose arm window saw an edge,
the counter does not hold OSC_DUR at the end of the cycle — the output
encoder has already decremented it to OSC_DUR - 1 in that same cycle. -/
theorem transient_edge_counter_counterexample :
    (cycle (initState 0 0) ⟨900, true, 0, 0, 300⟩).isOscillating ≠ OSC_DUR := by
  decide

/-- Claim C5, amended: an edge during the arm window sets the counter
to OSC_DUR = 50 during the cycle (overwriting any running count); the
OSCILLATING LED is asserted in that same cycle and the encoder
decrements the counter to 49 by the cycle's end; absent any re-trigger
the counter loses exactly one per cycle, and a following no-trigger
cycle asserts the OSCILLATING LED exactly while the counter has not yet
reached zero, i.e. for exactly 49 further cycles. -/
theorem transient_edge_decay (s : LoopState) (inp : CycleInput)
    (he : inp.edge = true) :
    oscAfterSlow s inp = OSC_DUR ∧
    (cycle s inp).isOscillating = OSC_DUR - 1 ∧
    ledOS (cycle s inp).portb = true ∧
    ∀ l, (∀ i ∈ l, NoTrigger i) →
      (runCycles (cycle s inp) l).isOscillating = OSC_DUR - 1 - l.length ∧
      ∀ inp2, NoTrigger inp2 →
        ledOS (cycle (runCycles (cycle s inp) l) inp2).portb
          = decide (l.length < OSC_DUR - 1) := by
  have hosc : oscAfterSlow s inp = OSC_DUR := oscAfterSlow_edge s inp he
  have hff : floatFinal s inp = 0 := by
    unfold floatFinal
    simp [hosc, OSC_DUR]
  have hc := cycle_portb_osc s inp
  have h1 : (cycle s inp).isOscillating = OSC_DUR - 1 := by
    rw [hc.1]
    simp [hff, hosc, OSC_DUR]
  refine ⟨hosc, h1, ?_, ?_⟩
  · have hp : (cycle s inp).portb
        = (levelBits (portbAfterPull s.portb) (isLowOf inp) (isHighOf inp) &&& 251) ||| 1 := by
      rw [hc.2]
      simp [hff, hosc, OSC_DUR]
    rw [hp]
    unfold ledOS
    rw [osLayer_testBit0, osLayer_testBit2]
    simp
  · intro l hl
    have hrun := noTrigger_run l hl (cycle s inp)
    rw [h1] at hrun
    refine ⟨hrun, ?_⟩
    intro inp2 h2
    rw [(noTrigger_cycle (runCycles (cycle s inp) l) inp2 h2).2, hrun]
    simp only [decide_eq_decide, OSC_DUR]
    omega

theorem transient_edge_decay_witness :
    oscAfterSlow (initState 0 0) ⟨900, true, 0, 0, 300⟩ = OSC_DUR ∧
    (cycle (initState 0 0) ⟨900, true, 0, 0, 300⟩).isOscillating = OSC_DUR - 1 ∧
    ledOS (cycle (runCycles (cycle (initState 0 0) ⟨900, true, 0, 0, 300⟩) [])
        ⟨900, false, 0, 0, 300⟩).portb
      = decide (([] : List CycleInput).length < OSC_DUR - 1) :=
  ⟨(transient_edge_decay (initState 0 0) ⟨900, true, 0, 0, 300⟩ rfl).1,
   (transient_edge_decay (initState 0 0) ⟨900, true, 0, 0, 300⟩ rfl).2.1,
   ((transient_edge_decay (initState 0 0) ⟨900, true, 0, 0, 300⟩ rfl).2.2.2 []
     (by simp)).2 ⟨900, false, 0, 0, 300⟩ (by decide)⟩

/-- Claim C6: if the previous cycle classified LOW and this one HIGH,
or the previous HIGH and this one LOW, and the floating flag is not
set, the slow-oscillation check sets the counter to OSC_DUR, and the
prior-classification snapshot is then overwritten with this cycle's
classification. -/
theorem slow_osc_trigger_spec (s : LoopState) (inp : CycleInput)
    (hf : isFloatingOf inp = 0)
    (h : (isHighOf inp = true ∧ s.lastLow ≠ 0) ∨
      (isLowOf inp = true ∧ s.lastHigh ≠ 0)) :
    oscAfterSlow s inp = OSC_DUR ∧
    (cycle s inp).lastHigh = (if isHighOf inp then 1 else 0) ∧
    (cycle s inp).lastLow = (if isLowOf inp then 1 else 0) := by
  have htrig : slowTrigger s inp = true := by
    unfold slowTrigger
    rcases h with ⟨h1, h2⟩ | ⟨h1, h2⟩ <;> simp [hf, h1, bne_iff_ne, h2]
  exact ⟨by unfold oscAfterSlow; simp [htrig], rfl, rfl⟩

theorem slow_osc_trigger_spec_witness :
    isFloatingOf ⟨900, false, 0, 0, 500⟩ = 0 ∧
    oscAfterSlow ⟨0, 0, 1, 0⟩ ⟨900, false, 0, 0, 500⟩ = OSC_DUR ∧
    (cycle ⟨0, 0, 1, 0⟩ ⟨900, false, 0, 0, 500⟩).lastHigh
      = (if isHighOf ⟨900, false, 0, 0, 500⟩ then 1 else 0) :=
  ⟨by decide,
   (slow_osc_trigger_spec ⟨0, 0, 1, 0⟩ ⟨900, false, 0, 0, 500⟩ (by decide)
     (Or.inl ⟨by decide, by decide⟩)).1,
   (slow_osc_trigger_spec ⟨0, 0, 1, 0⟩ ⟨900, false, 0, 0, 500⟩ (by decide)
     (Or.inl ⟨by decide, by decide⟩)).2.1⟩

/-- Claim C7: in a non-floating cycle with a nonzero counter the
encoder layers the OSCILLATING pattern by a read-modify-write that
clears only bit 2 and sets bit 0 on top of the just-written level
bits, decrements the counter by exactly one, and the HIGH and LOW
indications survive the layering: the bits set for HIGH (bit 0) and
LOW (bit 1) remain set and the corresponding LEDs remain lit. -/
theorem osc_layering_preserves_levels (s : LoopState) (inp : CycleInput)
    (hf : floatFinal s inp = 0) (ho : oscAfterSlow s inp ≠ 0) :
    (cycle s inp).portb
      = (levelBits (portbAfterPull s.portb) (isLowOf inp) (isHighOf inp) &&& 0b11111011)
        ||| 0b00000001 ∧
    (cycle s inp).isOscillating = oscAfterSlow s inp - 1 ∧
    (isHighOf inp = true →
      (cycle s inp).portb.testBit 0 = true ∧ ledHI (cycle s inp).portb = true) ∧
    (isLowOf inp = true →
      (cycle s inp).portb.testBit 1 = true ∧ ledLO (cycle s inp).portb = true) := by
  have hc := cycle_portb_osc s inp
  have hp : (cycle s inp).portb
      = (levelBits (portbAfterPull s.portb) (isLowOf inp) (isHighOf inp) &&& 251) ||| 1 := by
    rw [hc.2]
    simp [hf, ho]
  have hn : (cycle s inp).isOscillating = oscAfterSlow s inp - 1 := by
    rw [hc.1]
    simp [hf, ho]
  refine ⟨hp, hn, ?_, ?_⟩
  · intro hh
    have hl : isLowOf inp = false := high_not_low inp hh
    constructor
    · rw [hp, osLayer_testBit0]
    · rw [hp]
      unfold ledHI
      rw [osLayer_testBit0, osLayer_testBit1, levelBits_testBit1, hl]
      simp
  · intro hl
    constructor
    · rw [hp, osLayer_testBit1, levelBits_testBit1]
      exact hl
    · rw [hp]
      unfold ledLO
      rw [osLayer_testBit1, osLayer_testBit2, levelBits_testBit1, hl]
      simp

theorem osc_layering_preserves_levels_witness :
    floatFinal ⟨5, 0, 0, 0⟩ ⟨900, false, 0, 0, 500⟩ = 0 ∧
    oscAfterSlow ⟨5, 0, 0, 0⟩ ⟨900, false, 0, 0, 500⟩ ≠ 0 ∧
    (cycle ⟨5, 0, 0, 0⟩ ⟨900, false, 0, 0, 500⟩).isOscillating
      = oscAfterSlow ⟨5, 0, 0, 0⟩ ⟨900, false, 0, 0, 500⟩ - 1 ∧
    ledHI (cycle ⟨5, 0, 0, 0⟩ ⟨900, false, 0, 0, 500⟩).portb = true :=
  ⟨by decide, by decide,
   (osc_layering_preserves_levels ⟨5, 0, 0, 0⟩ ⟨900, false, 0, 0, 500⟩
     (by decide) (by decide)).2.1,
   ((osc_layering_preserves_levels ⟨5, 0, 0, 0⟩ ⟨900, false, 0, 0, 500⟩
     (by decide) (by decide)).2.2.1 (by decide)).2⟩

/-- Claim C8: the floating check is idempotent with respect to the
line state: run twice in a row, threading the pull-resource register
state of the first run into the second, with the same observed PINB
responses to the biases, it yields the same floating flag both times;
and the flag agrees with the per-cycle floating computation. -/
theorem floating_check_idempotent (r : PullRegs) (u d : Nat) :
    (floatCheckStep (floatCheckStep r u d).2 u d).1 = (floatCheckStep r u d).1 ∧
    (floatCheckStep r u d).1 = floatingCheck u d :=
  ⟨rfl, rfl⟩

/-- Claim C9: the oscillation counter always stays in the range 0 to
OSC_DUR: from the zero-initialised start it remains at most OSC_DUR
along every run, and a single cycle preserves the bound (its only
writes are the OSC_DUR assignments and a decrement guarded by the
counter being nonzero). -/
theorem osc_counter_range :
    (∀ lh ll l, (runCycles (initState lh ll) l).isOscillating ≤ OSC_DUR) ∧
    (∀ s inp, s.isOscillating ≤ OSC_DUR →
      (cycle s inp).isOscillating ≤ OSC_DUR) := by
  constructor
  · intro lh ll l
    have H : ∀ (t : List CycleInput) (s : LoopState), s.isOscillating ≤ OSC_DUR →
        (runCycles s t).isOscillating ≤ OSC_DUR := by
      intro t
      induction t with
      | nil => intro s hs; exact hs
      | cons a t2 ih =>
        intro s hs
        exact ih (cycle s a) (cycle_osc_le s a hs)
    exact H l (initState lh ll) (by simp [initState, OSC_DUR])
  · exact cycle_osc_le

theorem osc_counter_range_witness :
    (cycle ⟨50, 0, 0, 0⟩ ⟨0, false, 0, 0, 0⟩).isOscillating ≤ OSC_DUR :=
  osc_counter_range.2 ⟨50, 0, 0, 0⟩ ⟨0, false, 0, 0, 0⟩ (by decide)

/-- Claim C10: the uninitialised prior-classification locals make the
first cycle's result depend on more than the inputs: with identical
inputs, initial lastLow = 0 and lastLow = 1 produce different
oscillation counters and different PORTB outputs in the first cycle
(one lights the OSCILLATING LED, the other does not). -/
theorem uninitialized_prior_classification :
    (cycle (initState 0 0) ⟨900, false, 0, 0, 500⟩).isOscillating ≠
      (cycle (initState 0 1) ⟨900, false, 0, 0, 500⟩).isOscillating ∧
    (cycle (initState 0 0) ⟨900, false, 0, 0, 500⟩).portb ≠
      (cycle (initState 0 1) ⟨900, false, 0, 0, 500⟩).portb ∧
    ledOS (cycle (initState 0 0) ⟨900, false, 0, 0, 500⟩).portb = false ∧
    ledOS (cycle (initState 0 1) ⟨900, false, 0, 0, 500⟩).portb = true := by
  decide
